import Mathlib

/-!
# Chord ring: interval predicates, identifier hash and the message dispatcher

A shallow embedding of `src/chord/util.go` (`Between`, `BetweenRightIncl`,
`BetweenLeftIncl`, `Hash`) and of `src/chord/chord_api.go` (`Packet`,
`Listener.Receive`, the `query*` senders and the `handle*` helpers).

Conventions of the embedding:

* Go `int` is the 64-bit signed integer: a value is an `Int`, and every
  arithmetic result is passed through `wrapInt` (two's complement wraparound).
* `ringSize` is a constant whose declaration is not among the sources; it is a
  parameter `ringSize : Nat` of every definition that uses it.
* A `*RemoteNode` is an `Option RemoteNode` (`none` is the nil pointer); a slice
  is a `List` (a nil slice and an empty slice are both `[]`).
* The process-wide `ChordNode` is passed explicitly as the node state.
* `Node.findSuccessor` and `Node.notify` are not among the sources; they are
  parameters of the dispatcher.
* Printing to standard output is not modelled.
-/

namespace Chord

/-! ## Machine integers -/

/-- Two's complement wraparound of a mathematical integer to Go's 64-bit `int`. -/
def wrapInt (z : Int) : Int :=
  (z + 9223372036854775808) % 18446744073709551616 - 9223372036854775808

/-- Largest value of Go's 64-bit `int`. -/
def maxInt : Int := 9223372036854775807

/-- Smallest value of Go's 64-bit `int`. -/
def minInt : Int := -9223372036854775808

/-! ## util.go: interval predicates -/

/-- Between checks if identifier is in range (a, b).
`nodeB += ringSize` in the first branch, `nodeA -= ringSize` in the second,
then `nodeX > nodeA && nodeX < nodeB`. -/
def Between (ringSize : Nat) (nodeX nodeA nodeB : Int) : Bool :=
  if nodeB < nodeA ∧ nodeX > nodeB then
    decide (nodeX > nodeA ∧ nodeX < wrapInt (nodeB + (ringSize : Int)))
  else if nodeB < nodeA ∧ nodeX < nodeB then
    decide (nodeX > wrapInt (nodeA - (ringSize : Int)) ∧ nodeX < nodeB)
  else
    decide (nodeX > nodeA ∧ nodeX < nodeB)

/-- BetweenRightIncl checks if identifier is in range (a, b]: the same
normalisation as `Between`, then `nodeX > nodeA && nodeX <= nodeB`. -/
def BetweenRightIncl (ringSize : Nat) (nodeX nodeA nodeB : Int) : Bool :=
  if nodeB < nodeA ∧ nodeX > nodeB then
    decide (nodeX > nodeA ∧ nodeX ≤ wrapInt (nodeB + (ringSize : Int)))
  else if nodeB < nodeA ∧ nodeX < nodeB then
    decide (nodeX > wrapInt (nodeA - (ringSize : Int)) ∧ nodeX ≤ nodeB)
  else
    decide (nodeX > nodeA ∧ nodeX ≤ nodeB)

/-- BetweenLeftIncl checks if identifier is in range [a, b): the same
normalisation as `Between`, then `nodeX >= nodeA && nodeX < nodeB`. -/
def BetweenLeftIncl (ringSize : Nat) (nodeX nodeA nodeB : Int) : Bool :=
  if nodeB < nodeA ∧ nodeX > nodeB then
    decide (nodeX ≥ nodeA ∧ nodeX < wrapInt (nodeB + (ringSize : Int)))
  else if nodeB < nodeA ∧ nodeX < nodeB then
    decide (nodeX ≥ wrapInt (nodeA - (ringSize : Int)) ∧ nodeX < nodeB)
  else
    decide (nodeX ≥ nodeA ∧ nodeX < nodeB)

/-! ## util.go: Hash -/

/-- A SHA-1 digest: twenty bytes. The digest function itself is a parameter of
`Hash`; nothing is assumed about it beyond the length of its output. -/
structure Digest where
  bytes : List (Fin 256)
  size_eq : bytes.length = 20

/-- The function `binary.BigEndian.Uint64`: the first eight bytes read as a big-endian
unsigned 64-bit number; `none` stands for the index-out-of-range failure on a
slice shorter than eight bytes. -/
def bigEndianUint64 : List (Fin 256) → Option Nat
  | b0 :: b1 :: b2 :: b3 :: b4 :: b5 :: b6 :: b7 :: _ =>
    some ((b7.val ||| b6.val <<< 8 ||| b5.val <<< 16 ||| b4.val <<< 24 |||
      b3.val <<< 32 ||| b2.val <<< 40 ||| b1.val <<< 48 ||| b0.val <<< 56)
      % 18446744073709551616)
  | _ => none

/-- Hash provides the SHA-1 hashing required to get the identifiers for nodes
and keys: `int(binary.BigEndian.Uint64(result) % ringSize)`. Division by a zero
`ringSize` and a short digest are the two failures (`none`). -/
def Hash (sha1 : String → Digest) (ringSize : Nat) (key : String) : Option Int :=
  match bigEndianUint64 (sha1 key).bytes with
  | none => none
  | some u => if ringSize = 0 then none else some (wrapInt ((u % ringSize : Nat) : Int))

/-! ## rpc.go and chord_api.go: data -/

/-- RemoteNode refers to the the structure of other Chord Nodes. -/
structure RemoteNode where
  Identifier : Int
  IP : String
  deriving DecidableEq, Repr

/-- Packet contains the format of how messages are sent to and fro nodes. -/
structure Packet where
  PacketType : String
  Msg : String
  List : List (Option RemoteNode)
  SenderIP : String
  deriving DecidableEq, Repr

/-- Modelled from the spec: the declaration of the `Node` struct is not among
the sources. Its fields are those the sources read (`PrintNode` in util.go, the
handlers in chord_api.go) and the spec's LocalNode: own identifier and address,
predecessor, successor list, finger table and the key-value store. -/
structure Node where
  Identifier : Int
  IP : String
  predecessor : Option RemoteNode
  successorList : List (Option RemoteNode)
  fingerTable : List (Option RemoteNode)
  hashTable : List (String × String)
  deriving DecidableEq, Repr

/-- The zero value of `Packet`, what `var reply Packet` declares. -/
def zeroPacket : Packet := ⟨"", "", [], ""⟩

/-- How a call of `Receive` ends: it returns an error value (`none` is the nil
error) together with the reply packet and the node state it leaves behind, or
it stops with a run-time failure (index out of range, nil dereference). -/
inductive Outcome where
  | returned (err : Option String) (reply : Packet) (node : Node)
  | panicked
  deriving DecidableEq, Repr

/-! ## Go library functions used by the dispatcher -/

/-- The conversion `string(i)` of an `int`: the UTF-8 text of the code point `i`,
and U+FFFD when `i` is not a valid code point. -/
def runeString (i : Int) : String :=
  if (0 ≤ i ∧ i < 55296) ∨ (57343 < i ∧ i < 1114112) then
    String.singleton (Char.ofNat i.toNat)
  else
    String.singleton (Char.ofNat 65533)

/-- The function `strconv.Atoi`: an optional sign followed by decimal digits. The second
component is `true` when Go returns a non-nil error: the value is then 0 for a
syntax error and the nearest `int` bound for a range error. -/
def Atoi (s : String) : Int × Bool :=
  match s.toList with
  | [] => (0, true)
  | c :: rest =>
    let digits := if c = '-' ∨ c = '+' then rest else c :: rest
    if digits = [] then (0, true)
    else if digits.all Char.isDigit then
      let n : Nat := digits.foldl (fun acc d => acc * 10 + (d.toNat - 48)) 0
      let v : Int := if c = '-' then -(n : Int) else (n : Int)
      if v > maxInt then (maxInt, true)
      else if v < minInt then (minInt, true)
      else (v, false)
    else (0, true)

/-! ## chord_api.go: handlers and the dispatcher -/

/-- The helper `handleQuery`: `ChordNode.findSuccessor(id)`. -/
def handleQuery (findSuccessor : Node → Int → Option RemoteNode)
    (ChordNode : Node) (id : Int) : Option RemoteNode :=
  findSuccessor ChordNode id

/-- The helper `handleQuerySuccesorList`: `ChordNode.successorList`. -/
def handleQuerySuccesorList (ChordNode : Node) : List (Option RemoteNode) :=
  ChordNode.successorList

/-- The helper `handleQueryPredecessor`: `ChordNode.predecessor`. -/
def handleQueryPredecessor (ChordNode : Node) : Option RemoteNode :=
  ChordNode.predecessor

/-- The helper `handleQueryNotify`: `ChordNode.notify(sender)`, which may change the
node. -/
def handleQueryNotify (notify : Node → Option RemoteNode → Node)
    (ChordNode : Node) (sender : Option RemoteNode) : Node :=
  notify ChordNode sender

/-- The method `Listener.Receive`: the switch on `payload.PacketType`, case by case in
the order of the source. `reply` is the packet the caller passed in; a case
that does not assign `*reply` leaves it as it was. -/
def Receive (findSuccessor : Node → Int → Option RemoteNode)
    (notify : Node → Option RemoteNode → Node)
    (ChordNode : Node) (payload reply : Packet) : Outcome :=
  if payload.PacketType = "ping" then
    .returned none ⟨"pong", "alive", [], ChordNode.IP⟩ ChordNode
  else if payload.PacketType = "pong" then
    .returned none reply ChordNode
  else if payload.PacketType = "query" then
    -- key, _ := strconv.Atoi(reply.Msg)
    let key := (Atoi reply.Msg).1
    match handleQuery findSuccessor ChordNode key with
    | none => .panicked -- node.Identifier on a nil node
    | some node =>
      .returned none ⟨"answer", runeString node.Identifier, [some node], ChordNode.IP⟩
        ChordNode
  else if payload.PacketType = "answer" then
    .returned none reply ChordNode
  else if payload.PacketType = "getSuccesorList" then
    .returned none ⟨"SuccesorList", "", handleQuerySuccesorList ChordNode, ChordNode.IP⟩
      ChordNode
  else if payload.PacketType = "getPredecessesor" then
    .returned none ⟨"Predecessor", "", [handleQueryPredecessor ChordNode], ChordNode.IP⟩
      ChordNode
  else if payload.PacketType = "notify" then
    match payload.List with
    | [] => .panicked -- payload.List[0] on an empty list
    | sender :: _ => .returned none reply (handleQueryNotify notify ChordNode sender)
  else
    .returned none reply ChordNode

/-! ## chord_api.go: senders

A remote call `client.Call("Listener.Receive", payload, &reply)` is the peer
running `Receive` on `payload` with a fresh zero reply; the caller sees the
reply packet when the peer returns a nil error and stops (`log.Fatal`)
otherwise. -/

/-- The remote call as the caller sees it: `some reply`, or `none` when the call
fails. -/
def Call (findSuccessor : Node → Int → Option RemoteNode)
    (notify : Node → Option RemoteNode → Node)
    (peer : Node) (payload : Packet) : Option Packet :=
  match Receive findSuccessor notify peer payload zeroPacket with
  | .returned none reply _ => some reply
  | .returned (some _) _ _ => none
  | .panicked => none

/-- The packet `query` builds: `Packet{"query", string(id), nil, ChordNode.IP}`. -/
def queryPacket (ChordNode : Node) (id : Int) : Packet :=
  ⟨"query", runeString id, [], ChordNode.IP⟩

/-- The sender `query`: sends the query packet and returns `reply.List[0]`; the outer
`none` is a failed call or an empty reply list. -/
def query (findSuccessor : Node → Int → Option RemoteNode)
    (notify : Node → Option RemoteNode → Node)
    (ChordNode peer : Node) (id : Int) : Option (Option RemoteNode) :=
  match Call findSuccessor notify peer (queryPacket ChordNode id) with
  | none => none
  | some reply => reply.List.head?

/-- The packet `queryPredecessor` builds:
`Packet{"getPredecessor", "Get predecessor", nil, ChordNode.IP}`. -/
def queryPredecessorPacket (ChordNode : Node) : Packet :=
  ⟨"getPredecessor", "Get predecessor", [], ChordNode.IP⟩

/-- The sender `queryPredecessor`: sends the packet above and returns `reply.List`. -/
def queryPredecessor (findSuccessor : Node → Int → Option RemoteNode)
    (notify : Node → Option RemoteNode → Node)
    (ChordNode peer : Node) : Option (List (Option RemoteNode)) :=
  match Call findSuccessor notify peer (queryPredecessorPacket ChordNode) with
  | none => none
  | some reply => some reply.List

/-- The packet types that have a case of their own in the switch of `Receive`,
in the order of the source. -/
def handledTypes : List String :=
  ["ping", "pong", "query", "answer", "getSuccesorList", "getPredecessesor", "notify"]

/-! ## Sample instances of the two absent methods and of the digest

Used only to evaluate the dispatcher on concrete inputs. -/

/-- A `findSuccessor` that answers with a node carrying the identifier it was
asked for, so that the reply shows which identifier reached it. -/
def echoFindSuccessor (_ : Node) (id : Int) : Option RemoteNode :=
  some ⟨id, "echo"⟩

/-- A `notify` that adopts the sender as predecessor. -/
def adoptNotify (n : Node) (sender : Option RemoteNode) : Node :=
  { n with predecessor := sender }

/-- A peer with identifier 1 whose predecessor is node 3. -/
def samplePeer : Node :=
  ⟨1, "10.0.0.1", some ⟨3, "10.0.0.3"⟩, [some ⟨2, "10.0.0.2"⟩], [], []⟩

/-- A caller with identifier 2 and no predecessor yet. -/
def sampleCaller : Node :=
  ⟨2, "10.0.0.2", none, [some ⟨3, "10.0.0.3"⟩], [], []⟩

/-- A digest function that maps every key to twenty bytes of value 255. -/
def sampleSha1 (_ : String) : Digest :=
  ⟨List.replicate 20 ⟨255, by decide⟩, by simp⟩

end Chord

namespace Chord

/-! ## Machine integers: when wraparound does nothing -/

theorem wrapInt_of_fits (z : Int) (hlo : -9223372036854775808 ≤ z)
    (hhi : z < 9223372036854775808) : wrapInt z = z := by
  unfold wrapInt
  omega

/-- On a ring of at most `2 ^ 62` identifiers the sum `nodeB + ringSize` stays in
the range of `int`. -/
theorem wrapInt_add_ringSize (M : Nat) (hfit : M ≤ 2 ^ 62) (b : Int) (h0 : 0 ≤ b)
    (h1 : b < M) : wrapInt (b + (M : Int)) = b + (M : Int) := by
  have hM : (M : Int) ≤ 4611686018427387904 := by exact_mod_cast hfit
  exact wrapInt_of_fits _ (by omega) (by omega)

/-- On a ring of at most `2 ^ 62` identifiers the difference `nodeA - ringSize`
stays in the range of `int`. -/
theorem wrapInt_sub_ringSize (M : Nat) (hfit : M ≤ 2 ^ 62) (a : Int) (h0 : 0 ≤ a)
    (h1 : a < M) : wrapInt (a - (M : Int)) = a - (M : Int) := by
  have hM : (M : Int) ≤ 4611686018427387904 := by exact_mod_cast hfit
  exact wrapInt_of_fits _ (by omega) (by omega)

/-- The residue of a difference of two identifiers. -/
theorem emod_of_diff (M : Int) (z : Int) (hlo : -M < z) (hhi : z < M) :
    z % M = if 0 ≤ z then z else z + M := by
  split_ifs with h
  · exact Int.emod_eq_of_lt h hhi
  · have : (z + M) % M = z + M := Int.emod_eq_of_lt (by omega) (by omega)
    rw [← this, Int.add_emod_self]

/-! ## Interval predicates -/

/-- C1. On a ring of `M` identifiers (`0 < M`, and `M ≤ 2 ^ 62` so that the
constant and the sums built from it are `int` values), for identifiers `x`,
`a`, `b` in `[0, M)` with `a ≠ b`, exactly one of `Between(x, a, b)`, `x = a`,
`x = b`, `Between(x, b, a)` holds; `b < a` is not excluded. -/
theorem Between_partition (M : Nat) (x a b : Int) (hM : 0 < M) (hfit : M ≤ 2 ^ 62)
    (hx : 0 ≤ x ∧ x < M) (ha : 0 ≤ a ∧ a < M) (hb : 0 ≤ b ∧ b < M) (hab : a ≠ b) :
    (Between M x a b = true ∧ x ≠ a ∧ x ≠ b ∧ Between M x b a = false) ∨
    (Between M x a b = false ∧ x = a ∧ x ≠ b ∧ Between M x b a = false) ∨
    (Between M x a b = false ∧ x ≠ a ∧ x = b ∧ Between M x b a = false) ∨
    (Between M x a b = false ∧ x ≠ a ∧ x ≠ b ∧ Between M x b a = true) := by
  have hpos : (0 : Int) < M := by exact_mod_cast hM
  unfold Between
  rw [wrapInt_add_ringSize M hfit b hb.1 hb.2, wrapInt_sub_ringSize M hfit a ha.1 ha.2,
    wrapInt_add_ringSize M hfit a ha.1 ha.2, wrapInt_sub_ringSize M hfit b hb.1 hb.2]
  split_ifs <;> simp <;> omega

theorem Between_partition_witness :
    (Between 8 1 5 2 = true ∧ (1 : Int) ≠ 5 ∧ (1 : Int) ≠ 2 ∧ Between 8 1 2 5 = false) ∨
    (Between 8 1 5 2 = false ∧ (1 : Int) = 5 ∧ (1 : Int) ≠ 2 ∧ Between 8 1 2 5 = false) ∨
    (Between 8 1 5 2 = false ∧ (1 : Int) ≠ 5 ∧ (1 : Int) = 2 ∧ Between 8 1 2 5 = false) ∨
    (Between 8 1 5 2 = false ∧ (1 : Int) ≠ 5 ∧ (1 : Int) ≠ 2 ∧ Between 8 1 2 5 = true) :=
  Between_partition 8 1 5 2 (by decide) (by decide) (by decide) (by decide) (by decide)
    (by decide)

/-- C3. On a ring of `M` identifiers (`0 < M ≤ 2 ^ 62`), for identifiers `x`,
`a`, `b` in `[0, M)`, `a = b` included, `Between(x, a, b)` is true exactly when
`0 < (x - a) mod M < (b - a) mod M`; for `a = b` it is false for every `x`. -/
theorem Between_iff_clockwise (M : Nat) (x a b : Int) (hM : 0 < M) (hfit : M ≤ 2 ^ 62)
    (hx : 0 ≤ x ∧ x < M) (ha : 0 ≤ a ∧ a < M) (hb : 0 ≤ b ∧ b < M) :
    (Between M x a b = true ↔ 0 < (x - a) % (M : Int) ∧ (x - a) % (M : Int) < (b - a) % (M : Int))
    ∧ Between M x a a = false := by
  have e1 := emod_of_diff M (x - a) (by omega) (by omega)
  have e2 := emod_of_diff M (b - a) (by omega) (by omega)
  rw [e1, e2]
  unfold Between
  rw [wrapInt_add_ringSize M hfit b hb.1 hb.2, wrapInt_sub_ringSize M hfit a ha.1 ha.2]
  constructor
  · split_ifs <;> simp <;> omega
  · split_ifs <;> simp <;> omega

theorem Between_iff_clockwise_witness :
    (Between 8 1 5 2 = true ↔
      0 < ((1 : Int) - 5) % ((8 : Nat) : Int) ∧
        ((1 : Int) - 5) % ((8 : Nat) : Int) < ((2 : Int) - 5) % ((8 : Nat) : Int))
    ∧ Between 8 1 5 5 = false :=
  Between_iff_clockwise 8 1 5 2 (by decide) (by decide) (by decide) (by decide) (by decide)

/-- C4. On a ring of `M` identifiers (`0 < M ≤ 2 ^ 62`), for identifiers `x`,
`a`, `b` in `[0, M)` with `a ≠ b`, `BetweenLeftIncl(x, a, b)` is true exactly
when `Between(x, a, b)` is true or `x = a`; `BetweenLeftIncl(a, a, b)` is true
and `BetweenLeftIncl(b, a, b)` is false, also when `b < a`. -/
theorem BetweenLeftIncl_iff (M : Nat) (x a b : Int) (hM : 0 < M) (hfit : M ≤ 2 ^ 62)
    (hx : 0 ≤ x ∧ x < M) (ha : 0 ≤ a ∧ a < M) (hb : 0 ≤ b ∧ b < M) (hab : a ≠ b) :
    (BetweenLeftIncl M x a b = true ↔ (Between M x a b = true ∨ x = a))
    ∧ BetweenLeftIncl M a a b = true ∧ BetweenLeftIncl M b a b = false := by
  unfold BetweenLeftIncl Between
  rw [wrapInt_add_ringSize M hfit b hb.1 hb.2, wrapInt_sub_ringSize M hfit a ha.1 ha.2]
  refine ⟨?_, ?_, ?_⟩
  · split_ifs <;> simp <;> omega
  · split_ifs <;> simp <;> omega
  · split_ifs <;> simp
    all_goals omega

theorem BetweenLeftIncl_iff_witness :
    (BetweenLeftIncl 8 5 5 2 = true ↔ (Between 8 5 5 2 = true ∨ (5 : Int) = 5))
    ∧ BetweenLeftIncl 8 5 5 2 = true ∧ BetweenLeftIncl 8 2 5 2 = false :=
  BetweenLeftIncl_iff 8 5 5 2 (by decide) (by decide) (by decide) (by decide) (by decide)
    (by decide)

/-- C5. On a ring of `M` identifiers (`0 < M ≤ 2 ^ 62`), for identifiers `x`,
`a`, `b` in `[0, M)` with `x ≠ a` and `x ≠ b`, the three predicates agree:
`Between(x, a, b) = BetweenRightIncl(x, a, b) = BetweenLeftIncl(x, a, b)`. -/
theorem Between_variants_agree (M : Nat) (x a b : Int) (hM : 0 < M) (hfit : M ≤ 2 ^ 62)
    (hx : 0 ≤ x ∧ x < M) (ha : 0 ≤ a ∧ a < M) (hb : 0 ≤ b ∧ b < M)
    (hxa : x ≠ a) (hxb : x ≠ b) :
    Between M x a b = BetweenRightIncl M x a b
    ∧ BetweenRightIncl M x a b = BetweenLeftIncl M x a b := by
  unfold Between BetweenRightIncl BetweenLeftIncl
  rw [wrapInt_add_ringSize M hfit b hb.1 hb.2, wrapInt_sub_ringSize M hfit a ha.1 ha.2]
  constructor
  · split_ifs <;> rw [decide_eq_decide] <;> omega
  · split_ifs <;> rw [decide_eq_decide] <;> omega

theorem Between_variants_agree_witness :
    Between 8 7 5 2 = BetweenRightIncl 8 7 5 2
    ∧ BetweenRightIncl 8 7 5 2 = BetweenLeftIncl 8 7 5 2 :=
  Between_variants_agree 8 7 5 2 (by decide) (by decide) (by decide) (by decide) (by decide)
    (by decide) (by decide)

/-- The bound `M ≤ 2 ^ 62` of the theorems above is what keeps `nodeB + ringSize`
an `int`: on a ring of `2 ^ 63 - 1` identifiers the sum `1 + ringSize` wraps to
a negative number and `Between(3, 2, 1)` is false. No power of two that is an
`int` constant lies beyond the bound. -/
theorem Between_beyond_int_range : Between 9223372036854775807 3 2 1 = false := by
  decide

/-- The right-closed predicate on every input of the ring: it is `Between` or
`x = b`, except that `x = b` is accepted only when the arc does not wrap. -/
theorem BetweenRightIncl_iff (M : Nat) (x a b : Int) (hfit : M ≤ 2 ^ 62)
    (hx : 0 ≤ x ∧ x < M) (ha : 0 ≤ a ∧ a < M) (hb : 0 ≤ b ∧ b < M) :
    BetweenRightIncl M x a b = true ↔ (Between M x a b = true ∨ (x = b ∧ a < b)) := by
  unfold BetweenRightIncl Between
  rw [wrapInt_add_ringSize M hfit b hb.1 hb.2, wrapInt_sub_ringSize M hfit a ha.1 ha.2]
  split_ifs <;> simp <;> omega

/-- C2, at the failing input: on the ring of 8 identifiers, with `a = 5` and
`b = 2` (the arc wraps), `BetweenRightIncl(2, 5, 2)` is false although
`x = b`; on the arc that does not wrap, `BetweenRightIncl(5, 2, 5)` is true. -/
theorem BetweenRightIncl_wrap_excludes_b :
    BetweenRightIncl 8 2 5 2 = false ∧ BetweenRightIncl 8 5 2 5 = true := by
  decide

/-! ## Hash -/

theorem bigEndianUint64_of_digest (d : Digest) : ∃ u, bigEndianUint64 d.bytes = some u := by
  obtain ⟨bs, hlen⟩ := d
  match bs, hlen with
  | b0 :: b1 :: b2 :: b3 :: b4 :: b5 :: b6 :: b7 :: _, _ => exact ⟨_, rfl⟩

/-- C8. For a ring size `0 < ringSize` that is an `int` constant
(`ringSize < 2 ^ 63`), every digest function and every key, `Hash` returns,
and its result is the big-endian value `u` of the first eight digest bytes
reduced modulo `ringSize`, with `0 ≤ Hash(key) < ringSize`. -/
theorem Hash_in_ring (sha1 : String → Digest) (ringSize : Nat) (key : String)
    (hpos : 0 < ringSize) (hint : ringSize < 2 ^ 63) :
    ∃ u h, bigEndianUint64 (sha1 key).bytes = some u ∧ Hash sha1 ringSize key = some h ∧
      h = ((u % ringSize : Nat) : Int) ∧ 0 ≤ h ∧ h < (ringSize : Int) := by
  obtain ⟨u, hu⟩ := bigEndianUint64_of_digest (sha1 key)
  have hlt : u % ringSize < ringSize := Nat.mod_lt _ hpos
  have hfit : ((u % ringSize : Nat) : Int) < 9223372036854775808 := by
    have : u % ringSize < 2 ^ 63 := lt_trans hlt hint
    exact_mod_cast this
  have hw : wrapInt ((u % ringSize : Nat) : Int) = ((u % ringSize : Nat) : Int) :=
    wrapInt_of_fits _ (by omega) hfit
  refine ⟨u, ((u % ringSize : Nat) : Int), hu, ?_, rfl, by omega, by exact_mod_cast hlt⟩
  unfold Hash
  rw [hu]
  simp only [Nat.pos_iff_ne_zero.mp hpos, if_false, hw]

theorem Hash_in_ring_witness :
    ∃ u h, bigEndianUint64 (sampleSha1 "apple").bytes = some u ∧
      Hash sampleSha1 64 "apple" = some h ∧
      h = ((u % 64 : Nat) : Int) ∧ 0 ≤ h ∧ h < ((64 : Nat) : Int) :=
  Hash_in_ring sampleSha1 64 "apple" (by decide) (by decide)

/-! ## The dispatcher -/

/-- The packet of `queryPredecessor` reaches the default case: whatever the node
and the reply passed in, `Receive` returns nil and changes nothing. -/
theorem Receive_queryPredecessorPacket (fs : Node → Int → Option RemoteNode)
    (nt : Node → Option RemoteNode → Node) (self peer : Node) (reply : Packet) :
    Receive fs nt peer (queryPredecessorPacket self) reply = .returned none reply peer := by
  simp [Receive, queryPredecessorPacket]

/-- C6, at the failing input: the peer `samplePeer` has predecessor node 3, yet
for the packet that `queryPredecessor` builds `Receive` returns nil with the
reply left at its zero value (type `""`, empty `List`), and `queryPredecessor`
returns the empty list instead of the list holding node 3. -/
theorem queryPredecessor_misses_case :
    handleQueryPredecessor samplePeer = some ⟨3, "10.0.0.3"⟩ ∧
    (queryPredecessorPacket sampleCaller).PacketType = "getPredecessor" ∧
    Receive echoFindSuccessor adoptNotify samplePeer (queryPredecessorPacket sampleCaller)
      zeroPacket = .returned none zeroPacket samplePeer ∧
    queryPredecessor echoFindSuccessor adoptNotify sampleCaller samplePeer = some [] := by
  refine ⟨rfl, rfl, ?_, ?_⟩
  · exact Receive_queryPredecessorPacket _ _ _ _ _
  · simp [queryPredecessor, Call, Receive_queryPredecessorPacket, zeroPacket]

theorem Atoi_empty : Atoi "" = (0, true) := by
  simp [Atoi]

/-- The query case reads the identifier from the reply packet: with a fresh zero
reply the peer resolves identifier 0, whatever identifier the packet carries. -/
theorem Receive_queryPacket (fs : Node → Int → Option RemoteNode)
    (nt : Node → Option RemoteNode → Node) (self peer : Node) (id : Int) :
    Receive fs nt peer (queryPacket self id) zeroPacket =
      match fs peer 0 with
      | none => .panicked
      | some node =>
        .returned none ⟨"answer", runeString node.Identifier, [some node], peer.IP⟩ peer := by
  simp [Receive, queryPacket, zeroPacket, Atoi_empty, handleQuery]

/-- C7, at the failing input: for identifier 5 the packet of `query` makes the
peer call `findSuccessor` with 0, not 5: with a `findSuccessor` that echoes the
identifier it receives, the reply list holds node 0, while `handleQuery` on 5
gives node 5. The `Msg` of the packet is moreover not a decimal numeral:
`Atoi` fails on it. -/
theorem query_loses_identifier :
    Receive echoFindSuccessor adoptNotify samplePeer (queryPacket sampleCaller 5) zeroPacket
      = .returned none ⟨"answer", runeString 0, [some ⟨0, "echo"⟩], "10.0.0.1"⟩ samplePeer ∧
    handleQuery echoFindSuccessor samplePeer 5 = some ⟨5, "echo"⟩ ∧
    query echoFindSuccessor adoptNotify sampleCaller samplePeer 5 = some (some ⟨0, "echo"⟩) ∧
    Atoi (queryPacket sampleCaller 5).Msg = (0, true) := by
  refine ⟨?_, rfl, ?_, ?_⟩
  · rw [Receive_queryPacket]; rfl
  · simp [query, Call, Receive_queryPacket, echoFindSuccessor]
  · decide

/-- A packet of a type without a case of its own is ignored. -/
theorem Receive_default (fs : Node → Int → Option RemoteNode)
    (nt : Node → Option RemoteNode → Node) (node : Node) (payload reply : Packet)
    (h : payload.PacketType ∉ handledTypes) :
    Receive fs nt node payload reply = .returned none reply node := by
  simp only [handledTypes, List.mem_cons, List.mem_singleton, not_or, List.not_mem_nil,
    or_false] at h
  obtain ⟨h1, h2, h3, h4, h5, h6, h7⟩ := h
  simp [Receive, h1, h2, h3, h4, h5, h6, h7]

/-- C9 as stated fails: not every packet of an unhandled type makes `Receive`
return a non-nil error (the packet of type `"put"` gets a nil error). -/
theorem Receive_unhandled_not_error :
    ¬ ∀ (fs : Node → Int → Option RemoteNode) (nt : Node → Option RemoteNode → Node)
        (node : Node) (payload reply : Packet),
        payload.PacketType ∉ handledTypes →
        ∃ e reply1 node1, Receive fs nt node payload reply = .returned (some e) reply1 node1 := by
  intro hall
  obtain ⟨e, r, n, h⟩ := hall echoFindSuccessor adoptNotify samplePeer
    ⟨"put", "apple", [], "10.0.0.2"⟩ zeroPacket (by decide)
  rw [Receive_default _ _ _ _ _ (by decide)] at h
  simp at h

/-- C9, amended. A packet whose type is none of the handled types is ignored:
`Receive` returns a nil error and leaves the reply packet and the node state as
they were. -/
theorem Receive_unhandled_ignored (fs : Node → Int → Option RemoteNode)
    (nt : Node → Option RemoteNode → Node) (node : Node) (payload reply : Packet)
    (h : payload.PacketType ∉ handledTypes) :
    Receive fs nt node payload reply = .returned none reply node :=
  Receive_default fs nt node payload reply h

theorem Receive_unhandled_ignored_witness :
    Receive echoFindSuccessor adoptNotify samplePeer ⟨"get", "apple", [], "10.0.0.2"⟩ zeroPacket
      = .returned none zeroPacket samplePeer :=
  Receive_unhandled_ignored echoFindSuccessor adoptNotify samplePeer
    ⟨"get", "apple", [], "10.0.0.2"⟩ zeroPacket (by decide)

/-- A notify packet with an empty list stops `Receive` with an index out of
range, whatever the node and the two absent methods are. -/
theorem Receive_notify_nil (fs : Node → Int → Option RemoteNode)
    (nt : Node → Option RemoteNode → Node) (node : Node) (msg ip : String) (reply : Packet) :
    Receive fs nt node ⟨"notify", msg, [], ip⟩ reply = .panicked := by
  simp [Receive]

/-- C10, at the failing input: on the notify packet with an empty `List`,
`Receive` does not return: `payload.List[0]` is out of range. With a one-element
list the same packet is handled. -/
theorem Receive_notify_empty_list_fails :
    Receive echoFindSuccessor adoptNotify samplePeer
      ⟨"notify", "I am our predecessor.", [], "10.0.0.2"⟩ zeroPacket = .panicked ∧
    Receive echoFindSuccessor adoptNotify samplePeer
      ⟨"notify", "I am our predecessor.", [some ⟨2, "10.0.0.2"⟩], "10.0.0.2"⟩ zeroPacket
      = .returned none zeroPacket (adoptNotify samplePeer (some ⟨2, "10.0.0.2"⟩)) := by
  refine ⟨Receive_notify_nil _ _ _ _ _ _, ?_⟩
  simp [Receive, handleQueryNotify]

end Chord
